import Mathlib

/-!
# Verification of the campus-core school-management service

A shallow embedding of the timetable scheduling engine, the multi-tenant
middleware, the identity/account services and the JWT token engine of the
campus-core repository, together with theorems settling the specification
claims about them.

Modelling conventions:
* UUIDs are natural numbers; `uuid.Parse` applied to a request string is
  modelled by decimal parsing (it fails exactly on malformed identifiers).
* The relational store is a list of rows per table; GORM `First`/`Count`
  queries become `List.find?`/`List.any` with the same `WHERE` predicates.
* `HH:MM` times are kept as `String` and compared with the lexicographic
  linear order on strings, exactly as the SQL string comparison does.
* Fallible Go functions returning `(T, error)` become `Except SvcError T`.
-/

namespace CampusCore

/-- Decimal digit test on a character. -/
def isDigitChar (c : Char) : Bool := decide (48 ≤ c.toNat) && decide (c.toNat ≤ 57)

/-- `uuid.Parse` on a request string: decimal parsing stands in for UUID
parsing; it fails exactly on strings that are not well-formed identifiers
(in particular on the empty string). -/
def uuidParse (s : String) : Option Nat :=
  if s.data ≠ [] ∧ s.data.all isDigitChar = true then
    some (s.data.foldl (fun n c => n * 10 + (c.toNat - 48)) 0)
  else none

/-- The domain error taxonomy (`internal/utils` error values plus the
service-level `errors.New` messages, identified by their meaning). -/
inductive SvcError where
  | invalidUUID
  | notFound (entity : String)
  | schedulingConflict
  | crossTenantAccess
  | actionNotPermitted
  | emailAlreadyExists
  | phoneAlreadyExists
  | invalidCredentials
  | refreshTokenInvalid
  | refreshTokenExpired
  | resetTokenInvalid
  | resetTokenExpired
  | accountDisabled
  | institutionNotFound
  | internalServer
  deriving DecidableEq, Repr

/-- `models.Timetable`: a timetable row (relations omitted; `day_of_week`
is the enum string, times are zero-padded `HH:MM` strings). -/
structure Timetable where
  id : Nat
  institutionID : Nat
  academicYearID : Nat
  classID : Nat
  sectionID : Nat
  subjectID : Nat
  teacherID : Nat
  dayOfWeek : String
  startTime : String
  endTime : String
  roomNumber : String
  isActive : Bool
  deriving DecidableEq, Repr

/-- Lexicographic (byte-wise) strict comparison of character lists, the
order SQL uses when it compares the `HH:MM` time columns as text. -/
def charListLtb : List Char → List Char → Bool
  | [], [] => false
  | [], _ :: _ => true
  | _ :: _, [] => false
  | a :: as, b :: bs =>
    if a.toNat < b.toNat then true
    else if b.toNat < a.toNat then false
    else charListLtb as bs

/-- `a < b` on time strings (SQL text comparison). -/
def strLt (a b : String) : Bool := charListLtb a.data b.data

/-- `a <= b` on time strings. -/
def strLe (a b : String) : Bool := ! strLt b a

/-- The shared `WHERE` clause of the three conflict queries in
`TimetableRepository.CheckConflict`, for a candidate `[s1, e1)` against a
stored row with columns `start_time = s2`, `end_time = e2`:
`(s2 <= s1 AND e2 > s1) OR (s2 < e1 AND e2 >= e1) OR (s2 >= s1 AND e2 <= e1)`. -/
def overlapClause (s1 e1 s2 e2 : String) : Bool :=
  (strLe s2 s1 && strLt s1 e2) ||
  (strLt s2 e1 && strLe e1 e2) ||
  (strLe s1 s2 && strLe e2 e1)

/-- The `id != excludeID` filter added to each conflict query on update. -/
def notExcluded (excl : Option Nat) (r : Timetable) : Bool :=
  match excl with
  | none => true
  | some ex => decide (r.id ≠ ex)

/-- Row predicate of the teacher-conflict query: same teacher, same day,
active, overlapping time, not the excluded id.  Note that the query does
not filter on `institution_id`. -/
def matchesTeacherConflict (tt : Timetable) (excl : Option Nat) (r : Timetable) : Bool :=
  decide (r.teacherID = tt.teacherID) && decide (r.dayOfWeek = tt.dayOfWeek) &&
    r.isActive && overlapClause tt.startTime tt.endTime r.startTime r.endTime &&
    notExcluded excl r

/-- Row predicate of the section-conflict query. -/
def matchesSectionConflict (tt : Timetable) (excl : Option Nat) (r : Timetable) : Bool :=
  decide (r.sectionID = tt.sectionID) && decide (r.dayOfWeek = tt.dayOfWeek) &&
    r.isActive && overlapClause tt.startTime tt.endTime r.startTime r.endTime &&
    notExcluded excl r

/-- Row predicate of the room-conflict query (run only when the candidate
has a room number). -/
def matchesRoomConflict (tt : Timetable) (excl : Option Nat) (r : Timetable) : Bool :=
  decide (r.roomNumber = tt.roomNumber) && decide (r.dayOfWeek = tt.dayOfWeek) &&
    r.isActive && overlapClause tt.startTime tt.endTime r.startTime r.endTime &&
    notExcluded excl r

/-- `TimetableRepository.CheckConflict`: teacher check, then section check,
then — only when the candidate's room number is non-empty — the room check;
each `Count > 0` becomes `List.any`. -/
def checkConflict (db : List Timetable) (tt : Timetable) (excl : Option Nat) : Bool :=
  db.any (matchesTeacherConflict tt excl) ||
  db.any (matchesSectionConflict tt excl) ||
  (decide (tt.roomNumber ≠ "") && db.any (matchesRoomConflict tt excl))

/-- `models.AcademicYear` (dates as integer timestamps). -/
structure AcademicYear where
  id : Nat
  institutionID : Nat
  name : String
  startDate : Int
  endDate : Int
  isCurrent : Bool
  description : String
  deriving DecidableEq, Repr

/-- `models.Class` (fields beyond id/tenant are irrelevant here). -/
structure ClassRow where
  id : Nat
  institutionID : Nat
  deriving DecidableEq, Repr

/-- `models.Section`: a section belongs to a class and carries no
`institution_id` of its own. -/
structure SectionRow where
  id : Nat
  classID : Nat
  deriving DecidableEq, Repr

/-- `models.Subject` (fields beyond id/tenant are irrelevant here). -/
structure SubjectRow where
  id : Nat
  institutionID : Nat
  deriving DecidableEq, Repr

/-- `models.Teacher`: tenant-scoped via `TenantBaseModel`. -/
structure TeacherRow where
  id : Nat
  institutionID : Nat
  userID : Nat
  deriving DecidableEq, Repr

/-- `AcademicYearRepository.FindByIDWithInstitution`. -/
def ayFindByIDWithInstitution (rows : List AcademicYear) (id inst : Nat) :
    Option AcademicYear :=
  rows.find? fun r => decide (r.id = id) && decide (r.institutionID = inst)

/-- `ClassRepository.FindByIDWithInstitution`. -/
def classFindByIDWithInstitution (rows : List ClassRow) (id inst : Nat) :
    Option ClassRow :=
  rows.find? fun r => decide (r.id = id) && decide (r.institutionID = inst)

/-- `SectionRepository.FindByID`: looks up by id only, with no tenant filter. -/
def sectionFindByID (rows : List SectionRow) (id : Nat) : Option SectionRow :=
  rows.find? fun r => decide (r.id = id)

/-- `SubjectRepository.FindByIDWithInstitution`. -/
def subjectFindByIDWithInstitution (rows : List SubjectRow) (id inst : Nat) :
    Option SubjectRow :=
  rows.find? fun r => decide (r.id = id) && decide (r.institutionID = inst)

/-- `TeacherRepository.FindByID`: looks up by id only, with no tenant filter. -/
def teacherFindByID (rows : List TeacherRow) (id : Nat) : Option TeacherRow :=
  rows.find? fun r => decide (r.id = id)

/-- The repositories a `TimetableService` holds (besides the timetable table). -/
structure TTEnv where
  academicYears : List AcademicYear
  classes : List ClassRow
  sections : List SectionRow
  subjects : List SubjectRow
  teachers : List TeacherRow
  deriving Repr

/-- `request.CreateTimetableRequest` (ids are raw strings, parsed by the service). -/
structure CreateTimetableRequest where
  academicYearID : String
  classID : String
  sectionID : String
  subjectID : String
  teacherID : String
  dayOfWeek : String
  startTime : String
  endTime : String
  roomNumber : String
  deriving Repr

/-- `TimetableService.Create`: parse the five UUIDs, resolve each foreign
reference (academic year, class, subject with the institution filter;
section and teacher by bare id), build the candidate, run `CheckConflict`,
and only then insert.  `newID` stands for the id GORM assigns on insert.
Returns the created row and the new table state. -/
def timetableCreate (env : TTEnv) (db : List Timetable)
    (req : CreateTimetableRequest) (institutionID : Nat) (newID : Nat) :
    Except SvcError (Timetable × List Timetable) := do
  let academicYearID ← match uuidParse req.academicYearID with
    | none => .error .invalidUUID
    | some v => .ok v
  let classID ← match uuidParse req.classID with
    | none => .error .invalidUUID
    | some v => .ok v
  let sectionID ← match uuidParse req.sectionID with
    | none => .error .invalidUUID
    | some v => .ok v
  let subjectID ← match uuidParse req.subjectID with
    | none => .error .invalidUUID
    | some v => .ok v
  let teacherID ← match uuidParse req.teacherID with
    | none => .error .invalidUUID
    | some v => .ok v
  match ayFindByIDWithInstitution env.academicYears academicYearID institutionID with
  | none => .error (.notFound "academic year not found")
  | some _ =>
  match classFindByIDWithInstitution env.classes classID institutionID with
  | none => .error (.notFound "class not found")
  | some _ =>
  match sectionFindByID env.sections sectionID with
  | none => .error (.notFound "section not found")
  | some _ =>
  match subjectFindByIDWithInstitution env.subjects subjectID institutionID with
  | none => .error (.notFound "subject not found")
  | some _ =>
  match teacherFindByID env.teachers teacherID with
  | none => .error (.notFound "teacher not found")
  | some _ =>
  let tt : Timetable :=
    { id := newID
      institutionID := institutionID
      academicYearID := academicYearID
      classID := classID
      sectionID := sectionID
      subjectID := subjectID
      teacherID := teacherID
      dayOfWeek := req.dayOfWeek
      startTime := req.startTime
      endTime := req.endTime
      roomNumber := req.roomNumber
      isActive := true }
  if checkConflict db tt none then
    .error .schedulingConflict
  else
    .ok (tt, db ++ [tt])

/-- `request.UpdateTimetableRequest`: empty string means "field not provided";
a non-empty id string is parsed and an unparseable one raises invalid-UUID. -/
structure UpdateTimetableRequest where
  academicYearID : String
  classID : String
  sectionID : String
  subjectID : String
  teacherID : String
  dayOfWeek : String
  startTime : String
  endTime : String
  roomNumber : String
  isActive : Option Bool
  deriving Repr

/-- `TimetableRepository.FindByIDWithInstitution`. -/
def ttFindByIDWithInstitution (db : List Timetable) (id inst : Nat) :
    Option Timetable :=
  db.find? fun r => decide (r.id = id) && decide (r.institutionID = inst)

/-- `TimetableRepository.Update` (GORM `Save`): replace the row with that id. -/
def ttSave (db : List Timetable) (tt : Timetable) : List Timetable :=
  db.map fun r => if r.id = tt.id then tt else r

/-- `TimetableService.Update`: load the entry tenant-scoped, patch each
provided field (re-resolving foreign references the same way `Create` does:
academic year, class, subject with the institution filter; section and
teacher by bare id), run `CheckConflict` excluding the entry's own id, and
only then save. -/
def timetableUpdate (env : TTEnv) (db : List Timetable) (id : Nat)
    (req : UpdateTimetableRequest) (institutionID : Nat) :
    Except SvcError (Timetable × List Timetable) := do
  let tt0 ← match ttFindByIDWithInstitution db id institutionID with
    | none => .error (.notFound "timetable entry not found")
    | some tt => .ok tt
  let tt1 ←
    if req.academicYearID ≠ "" then
      match uuidParse req.academicYearID with
      | none => .error SvcError.invalidUUID
      | some ayID =>
        match ayFindByIDWithInstitution env.academicYears ayID institutionID with
        | none => .error (SvcError.notFound "academic year not found")
        | some _ => .ok { tt0 with academicYearID := ayID }
    else .ok tt0
  let tt2 ←
    if req.classID ≠ "" then
      match uuidParse req.classID with
      | none => .error SvcError.invalidUUID
      | some classID =>
        match classFindByIDWithInstitution env.classes classID institutionID with
        | none => .error (SvcError.notFound "class not found")
        | some _ => .ok { tt1 with classID := classID }
    else .ok tt1
  let tt3 ←
    if req.sectionID ≠ "" then
      match uuidParse req.sectionID with
      | none => .error SvcError.invalidUUID
      | some sectionID =>
        match sectionFindByID env.sections sectionID with
        | none => .error (SvcError.notFound "section not found")
        | some _ => .ok { tt2 with sectionID := sectionID }
    else .ok tt2
  let tt4 ←
    if req.subjectID ≠ "" then
      match uuidParse req.subjectID with
      | none => .error SvcError.invalidUUID
      | some subjectID =>
        match subjectFindByIDWithInstitution env.subjects subjectID institutionID with
        | none => .error (SvcError.notFound "subject not found")
        | some _ => .ok { tt3 with subjectID := subjectID }
    else .ok tt3
  let tt5 ←
    if req.teacherID ≠ "" then
      match uuidParse req.teacherID with
      | none => .error SvcError.invalidUUID
      | some teacherID =>
        match teacherFindByID env.teachers teacherID with
        | none => .error (SvcError.notFound "teacher not found")
        | some _ => .ok { tt4 with teacherID := teacherID }
    else .ok tt4
  let tt6 := if req.dayOfWeek ≠ "" then { tt5 with dayOfWeek := req.dayOfWeek } else tt5
  let tt7 := if req.startTime ≠ "" then { tt6 with startTime := req.startTime } else tt6
  let tt8 := if req.endTime ≠ "" then { tt7 with endTime := req.endTime } else tt7
  let tt9 := if req.roomNumber ≠ "" then { tt8 with roomNumber := req.roomNumber } else tt8
  let tt10 := match req.isActive with
    | some b => { tt9 with isActive := b }
    | none => tt9
  if checkConflict db tt10 (some id) then
    .error .schedulingConflict
  else
    .ok (tt10, ttSave db tt10)

/-! ### Weekly views (`groupByDay` and the by-class/section/teacher queries) -/

/-- One day of `response.WeekTimetableResponse` (entries kept as model rows;
`toResponse` only reshapes fields). -/
structure DayTimetable where
  day : String
  entries : List Timetable
  deriving DecidableEq, Repr

/-- The `dayOrder` slice of `TimetableService.groupByDay`. -/
def dayOrder : List String :=
  ["SUNDAY", "MONDAY", "TUESDAY", "WEDNESDAY", "THURSDAY", "FRIDAY", "SATURDAY"]

/-- `TimetableService.groupByDay`: bucket entries by day (the Go `dayMap`
appends in input order, so each bucket is the in-order filter of the input),
then emit the buckets in `dayOrder` sequence, skipping days whose bucket is
absent from the map — that is, days with no entries. -/
def groupByDay (tts : List Timetable) : List DayTimetable :=
  dayOrder.filterMap fun d =>
    if (tts.filter fun tt => tt.dayOfWeek = d).isEmpty then none
    else some ⟨d, tts.filter fun tt => tt.dayOfWeek = d⟩

/-- `TimetableRepository.FindByClassID`: active entries of the class,
optionally restricted to one academic year, which the SQL then orders by
`day_of_week ASC, start_time ASC` (ordering is a property of the result
list, stated separately in the theorems). -/
def findByClassID (db : List Timetable) (classID : Nat)
    (academicYearID : Option Nat) : List Timetable :=
  db.filter fun r =>
    decide (r.classID = classID) && r.isActive &&
      (match academicYearID with
       | none => true
       | some ay => decide (r.academicYearID = ay))

/-! ### Academic years (`AcademicYearRepository` / `AcademicYearService`) -/

/-- Row action of `SetCurrent`'s first `UPDATE`: unset `is_current` on the
institution's current rows. -/
def unsetCurrentRow (inst : Nat) (r : AcademicYear) : AcademicYear :=
  if r.institutionID = inst ∧ r.isCurrent then { r with isCurrent := false } else r

/-- Row action of `SetCurrent`'s second `UPDATE`: set `is_current` on the
row with the given id in the institution. -/
def setCurrentRow (id inst : Nat) (r : AcademicYear) : AcademicYear :=
  if r.id = id ∧ r.institutionID = inst then { r with isCurrent := true } else r

/-- `AcademicYearRepository.SetCurrent`: inside one transaction, first unset
`is_current` on every row of the institution that has it set, then set it on
the row with the given id in that institution. -/
def setCurrent (rows : List AcademicYear) (id inst : Nat) : List AcademicYear :=
  (rows.map (unsetCurrentRow inst)).map (setCurrentRow id inst)

/-- `AcademicYearRepository.NameExists`. -/
def ayNameExists (rows : List AcademicYear) (name : String) (inst : Nat)
    (excludeID : Option Nat) : Bool :=
  rows.any fun r =>
    decide (r.name = name) && decide (r.institutionID = inst) &&
      (match excludeID with
       | none => true
       | some ex => decide (r.id ≠ ex))

/-- `request.CreateAcademicYearRequest` (dates as integer timestamps). -/
structure CreateAcademicYearRequest where
  name : String
  startDate : Int
  endDate : Int
  isCurrent : Bool
  description : String
  deriving Repr

/-- `AcademicYearService.Create`: reject a non-increasing date range, reject a
duplicate name in the tenant, insert the row with `is_current` taken from the
request, and — when the request asks for current — run `SetCurrent` on the
freshly inserted id.  `newID` stands for the id GORM assigns on insert. -/
def academicYearCreate (rows : List AcademicYear)
    (req : CreateAcademicYearRequest) (institutionID : Nat) (newID : Nat) :
    Except SvcError (List AcademicYear) :=
  if req.endDate < req.startDate ∨ req.endDate = req.startDate then
    .error .internalServer
  else if ayNameExists rows req.name institutionID none then
    .error .internalServer
  else
    let ay : AcademicYear :=
      { id := newID
        institutionID := institutionID
        name := req.name
        startDate := req.startDate
        endDate := req.endDate
        isCurrent := req.isCurrent
        description := req.description }
    let inserted := rows ++ [ay]
    if req.isCurrent then
      .ok (setCurrent inserted newID institutionID)
    else
      .ok inserted

/-- `AcademicYearService.Activate`: verify the year exists in the tenant,
then `SetCurrent`. -/
def academicYearActivate (rows : List AcademicYear) (id institutionID : Nat) :
    Except SvcError (List AcademicYear) :=
  match ayFindByIDWithInstitution rows id institutionID with
  | none => .error (.notFound "academic year not found")
  | some _ => .ok (setCurrent rows id institutionID)

/-- One academic-year operation of the sequences claim: a service `Create`
or `Activate` call. -/
inductive AYOp where
  | create (req : CreateAcademicYearRequest) (institutionID : Nat)
  | activate (id : Nat) (institutionID : Nat)

/-- Academic-year table state plus the id counter standing for GORM's fresh
primary keys: every existing row's id is below `nextID`. -/
structure AYState where
  rows : List AcademicYear
  nextID : Nat
  deriving Repr

/-- Run one operation against the state; a rejected operation leaves the
table unchanged (the service returns the error before any write). -/
def ayStep (st : AYState) (op : AYOp) : AYState :=
  match op with
  | .create req inst =>
    match academicYearCreate st.rows req inst st.nextID with
    | .ok rows' => { rows := rows', nextID := st.nextID + 1 }
    | .error _ => { st with nextID := st.nextID + 1 }
  | .activate id inst =>
    match academicYearActivate st.rows id inst with
    | .ok rows' => { st with rows := rows' }
    | .error _ => st

/-- The empty store. -/
def ayInit : AYState := { rows := [], nextID := 0 }

/-- Execute a sequence of academic-year operations from the empty store. -/
def ayExec (ops : List AYOp) : AYState := ops.foldl ayStep ayInit

/-- Number of rows of the tenant flagged `is_current`. -/
def countCurrent (rows : List AcademicYear) (inst : Nat) : Nat :=
  (rows.filter fun r => decide (r.institutionID = inst) && r.isCurrent).length

/-! ### Credential & token engine (`utils.JWTManager`)

Signing is external (`golang-jwt`); a signed token is modelled as its claim
set plus the key it was signed with and its signing-method family, so that
"signature verifies" is "the key equals the manager's secret and the method
is HMAC".  The `Subject` claim is written by the generators as
`userID.String()` and read back with `uuid.Parse`, which always succeeds on
a serialized UUID, so the embedding keeps the parsed form.  Time is in
seconds. -/

/-- `jwt.RegisteredClaims` as this codebase populates them. -/
structure RegisteredClaims where
  subject : Nat
  issuer : String
  expiresAt : Nat
  issuedAt : Nat
  jti : Nat
  deriving DecidableEq, Repr

/-- A serialized, signed token string. -/
structure SignedToken where
  claims : RegisteredClaims
  signedWith : String
  methodIsHMAC : Bool
  deriving DecidableEq, Repr

/-- `utils.JWTManager`. -/
structure JWTManager where
  secret : String
  accessExpiry : Nat
  refreshExpiry : Nat
  deriving DecidableEq, Repr

/-- `JWTManager.GenerateRefreshToken`: issuer `campus-core`, expiry
`now + refreshExpiry`, fresh jti. -/
def generateRefreshToken (m : JWTManager) (userID : Nat) (now jti : Nat) :
    SignedToken :=
  { claims :=
      { subject := userID
        issuer := "campus-core"
        expiresAt := now + m.refreshExpiry
        issuedAt := now
        jti := jti }
    signedWith := m.secret
    methodIsHMAC := true }

/-- `JWTManager.GenerateResetToken`: issuer `campus-core-reset`, fixed
1-hour (3600 s) expiry, fresh jti. -/
def generateResetToken (m : JWTManager) (userID : Nat) (now jti : Nat) :
    SignedToken :=
  { claims :=
      { subject := userID
        issuer := "campus-core-reset"
        expiresAt := now + 3600
        issuedAt := now
        jti := jti }
    signedWith := m.secret
    methodIsHMAC := true }

/-- `JWTManager.ValidateRefreshToken`: verify HMAC method and signature,
then expiry, then return the subject.  No issuer check is performed. -/
def validateRefreshToken (m : JWTManager) (tok : SignedToken) (now : Nat) :
    Except SvcError Nat :=
  if ¬tok.methodIsHMAC ∨ tok.signedWith ≠ m.secret then
    .error .refreshTokenInvalid
  else if tok.claims.expiresAt ≤ now then
    .error .refreshTokenExpired
  else
    .ok tok.claims.subject

/-- `JWTManager.ValidateResetToken`: verify HMAC method and signature, then
expiry, then require issuer `campus-core-reset`, then return the subject. -/
def validateResetToken (m : JWTManager) (tok : SignedToken) (now : Nat) :
    Except SvcError Nat :=
  if ¬tok.methodIsHMAC ∨ tok.signedWith ≠ m.secret then
    .error .resetTokenInvalid
  else if tok.claims.expiresAt ≤ now then
    .error .resetTokenExpired
  else if tok.claims.issuer ≠ "campus-core-reset" then
    .error .resetTokenInvalid
  else
    .ok tok.claims.subject

/-! ### Users and the identity services -/

/-- `models.UserProfile` (the fields the claims touch). -/
structure UserProfile where
  institutionID : Option Nat
  firstName : String
  lastName : String
  deriving DecidableEq, Repr

/-- `models.User` with its 1:1 profile.  The stored refresh token is the
single active one (`none` models the cleared/empty column). -/
structure User where
  id : Nat
  email : String
  phone : String
  role : String
  isActive : Bool
  refreshToken : Option SignedToken
  profile : Option UserProfile
  deriving DecidableEq, Repr

/-- `UserRepository.FindByID`. -/
def userFindByID (users : List User) (id : Nat) : Option User :=
  users.find? fun u => decide (u.id = id)

/-- `UserRepository.EmailExists` (no id exclusion in the query). -/
def emailExists (users : List User) (email : String) : Bool :=
  users.any fun u => decide (u.email = email)

/-- `UserRepository.PhoneExists` (no id exclusion in the query). -/
def phoneExists (users : List User) (phone : String) : Bool :=
  users.any fun u => decide (u.phone = phone)

/-- `UserRepository.Update` (GORM `Save`): replace the row with that id. -/
def userSave (users : List User) (u : User) : List User :=
  users.map fun r => if r.id = u.id then u else r

/-- `UserRepository.Delete` (GORM soft delete): the row disappears from
every later default-scoped query. -/
def userDelete (users : List User) (id : Nat) : List User :=
  users.filter fun r => decide (r.id ≠ id)

/-- The role constants of `models`. -/
def RoleSuperAdmin : String := "SUPER_ADMIN"

/-- `request.UpdateUserRequest` (empty string means "not provided"). -/
structure UpdateUserRequest where
  email : String
  phone : String
  firstName : String
  lastName : String
  isActive : Option Bool
  deriving Repr

/-- `UserService.UpdateUser`: load the target; for a non-super-admin caller
first the tenant check (when the target's profile institution is set, its
UUID string must equal the caller's institution string — `none` models the
empty caller string), then the super-admin-target check; then apply the
provided fields and save. -/
def updateUser (users : List User) (id : Nat) (req : UpdateUserRequest)
    (creatorRole : String) (creatorInstitutionID : Option Nat) :
    Except SvcError (User × List User) := do
  let user ← match userFindByID users id with
    | none => .error (SvcError.notFound "user not found")
    | some u => .ok u
  if creatorRole ≠ RoleSuperAdmin then
    if ∃ p, user.profile = some p ∧ ∃ b, p.institutionID = some b ∧
        creatorInstitutionID ≠ some b then
      .error .crossTenantAccess
    else if user.role = RoleSuperAdmin then
      .error .actionNotPermitted
    else
      updateUserApply users user req
  else
    updateUserApply users user req
where
  /-- The field-application tail of `UpdateUser` (after the security checks). -/
  updateUserApply (users : List User) (user : User) (req : UpdateUserRequest) :
      Except SvcError (User × List User) := do
    let user ←
      if req.email ≠ "" ∧ req.email ≠ user.email then
        if emailExists users req.email then .error SvcError.emailAlreadyExists
        else .ok { user with email := req.email }
      else .ok user
    let user ←
      if req.phone ≠ "" ∧ req.phone ≠ user.phone then
        if phoneExists users req.phone then .error SvcError.phoneAlreadyExists
        else .ok { user with phone := req.phone }
      else .ok user
    let user := match req.isActive with
      | some b => { user with isActive := b }
      | none => user
    let user := match user.profile with
      | some p =>
        let p := if req.firstName ≠ "" then { p with firstName := req.firstName } else p
        let p := if req.lastName ≠ "" then { p with lastName := req.lastName } else p
        { user with profile := some p }
      | none => user
    .ok (user, userSave users user)

/-- `UserService.DeleteUser`: load the target; the same two security checks
as `UpdateUser`; then soft delete. -/
def deleteUser (users : List User) (id : Nat) (creatorRole : String)
    (creatorInstitutionID : Option Nat) : Except SvcError (List User) := do
  let user ← match userFindByID users id with
    | none => .error (SvcError.notFound "user not found")
    | some u => .ok u
  if creatorRole ≠ RoleSuperAdmin then
    if ∃ p, user.profile = some p ∧ ∃ b, p.institutionID = some b ∧
        creatorInstitutionID ≠ some b then
      .error .crossTenantAccess
    else if user.role = RoleSuperAdmin then
      .error .actionNotPermitted
    else
      .ok (userDelete users id)
  else
    .ok (userDelete users id)

/-! ### `AuthService.RefreshToken` -/

/-- The access-token claims minted on refresh (`utils.Claims`). -/
structure AccessClaims where
  userID : Nat
  email : String
  role : String
  institutionID : Option Nat
  permissions : List String
  expiresAt : Nat
  deriving DecidableEq, Repr

/-- `JWTManager.GenerateAccessToken` (claims only; the signature side is as
for the other tokens). -/
def generateAccessToken (m : JWTManager) (userID : Nat) (email role : String)
    (institutionID : Option Nat) (permissions : List String) (now : Nat) :
    AccessClaims :=
  { userID := userID
    email := email
    role := role
    institutionID := institutionID
    permissions := permissions
    expiresAt := now + m.accessExpiry }

/-- `UserRepository.SaveRefreshToken`. -/
def saveRefreshToken (users : List User) (id : Nat) (tok : SignedToken) :
    List User :=
  users.map fun u => if u.id = id then { u with refreshToken := some tok } else u

/-- `AuthService.RefreshToken`: validate the presented token, resolve the
user by its subject, require the stored refresh token to equal the presented
one, require the account active, then mint a new access/refresh pair and
persist the new refresh token.  The static role→permission map is consumed
as the external `permsFor`; `jti` stands for the fresh token id. -/
def refreshTokenService (m : JWTManager) (users : List User)
    (permsFor : String → List String) (tok : SignedToken) (now jti : Nat) :
    Except SvcError (List User × AccessClaims × SignedToken) := do
  let userID ← validateRefreshToken m tok now
  let user ← match userFindByID users userID with
    | none => .error SvcError.invalidCredentials
    | some u => .ok u
  if user.refreshToken ≠ some tok then
    .error .refreshTokenInvalid
  else if ¬user.isActive then
    .error .accountDisabled
  else
    let institutionID := match user.profile with
      | some p => p.institutionID
      | none => none
    let access := generateAccessToken m user.id user.email user.role
      institutionID (permsFor user.role) now
    let refresh := generateRefreshToken m user.id now jti
    .ok (saveRefreshToken users user.id refresh, access, refresh)

/-! ### Tenant resolution middleware (`middleware.TenantMiddleware`) -/

/-- `models.Institution` (the fields the middleware touches). -/
structure Institution where
  id : Nat
  isActive : Bool
  deriving DecidableEq, Repr

/-- The tenant-existence cache: cached key strings with their absolute
expiry time (`SetWithExpiry` with a 1-hour TTL). -/
structure TenantCache where
  entries : List (String × Nat)
  deriving Repr

/-- `database.Exists` on the cache at time `now`. -/
def cacheExists (cache : TenantCache) (key : String) (now : Nat) : Bool :=
  cache.entries.any fun kv => decide (kv.1 = key) && decide (now < kv.2)

/-- `database.SetWithExpiry` with the middleware's 1-hour TTL. -/
def cacheSetHour (cache : TenantCache) (key : String) (now : Nat) : TenantCache :=
  { entries := cache.entries ++ [(key, now + 3600)] }

/-- How a request leaves the middleware: proceed (with the resolved
`institution_id` context value, `""` when none) or abort with an error. -/
inductive MwOutcome where
  | proceed (institutionID : String)
  | abort (e : SvcError)
  deriving DecidableEq, Repr

/-- `middleware.TenantMiddleware` as a function of the request's resolved
auth context (`authInstitutionID`, `role`, both `""` when absent), the
`X-Institution-ID` header (`""` when absent), whether a Redis client is
configured, the cache, and the institutions table.  Returns the outcome and
the cache afterwards. -/
def tenantMiddleware (redisAvailable : Bool) (cache : TenantCache)
    (institutions : List Institution) (authInstitutionID role header : String)
    (now : Nat) : MwOutcome × TenantCache :=
  if authInstitutionID ≠ "" then
    if header ≠ "" ∧ header ≠ authInstitutionID then
      if role = RoleSuperAdmin then (.proceed header, cache)
      else (.abort .crossTenantAccess, cache)
    else (.proceed authInstitutionID, cache)
  else if header = "" then
    (.proceed "", cache)
  else
    match uuidParse header with
    | none => (.abort .invalidUUID, cache)
    | some id =>
      if redisAvailable then
        let key := "institution:exists:" ++ header
        if cacheExists cache key now then
          (.proceed header, cache)
        else if institutions.any fun i => decide (i.id = id) && i.isActive then
          (.proceed header, cacheSetHour cache key now)
        else
          (.abort .institutionNotFound, cache)
      else
        (.proceed header, cache)

/-! ### Concrete fixtures used by the claim theorems -/

/-- `true` exactly on a successful service result. -/
def succeeds {α : Type} : Except SvcError α → Bool
  | .ok _ => true
  | .error _ => false

/-- Scenario B repositories: institution `1` with one academic year, one
class, two sections, one subject and teacher `T = 20`. -/
def scenarioBEnv : TTEnv :=
  { academicYears := [{ id := 60, institutionID := 1, name := "2025-2026",
                        startDate := 0, endDate := 1, isCurrent := true,
                        description := "" }]
    classes := [{ id := 40, institutionID := 1 }]
    sections := [{ id := 30, classID := 40 }, { id := 31, classID := 40 }]
    subjects := [{ id := 50, institutionID := 1 }]
    teachers := [{ id := 20, institutionID := 1, userID := 2 }] }

/-- Scenario B existing entry: `MONDAY 09:00-09:45`, room `101`, teacher
`20`, section `30`. -/
def scenarioBDb : List Timetable :=
  [{ id := 10, institutionID := 1, academicYearID := 60, classID := 40,
     sectionID := 30, subjectID := 50, teacherID := 20, dayOfWeek := "MONDAY",
     startTime := "09:00", endTime := "09:45", roomNumber := "101",
     isActive := true }]

/-- Scenario B second attempt: `MONDAY 09:30-10:15`, same teacher, the other
section, no room. -/
def scenarioBOverlapReq : CreateTimetableRequest :=
  { academicYearID := "60", classID := "40", sectionID := "31",
    subjectID := "50", teacherID := "20", dayOfWeek := "MONDAY",
    startTime := "09:30", endTime := "10:15", roomNumber := "" }

/-- Scenario B third attempt: `MONDAY 09:45-10:30`, same teacher and
section, touching the existing entry. -/
def scenarioBTouchingReq : CreateTimetableRequest :=
  { academicYearID := "60", classID := "40", sectionID := "30",
    subjectID := "50", teacherID := "20", dayOfWeek := "MONDAY",
    startTime := "09:45", endTime := "10:30", roomNumber := "" }

/-- Tenant-1 repositories for the cross-tenant conflict experiment. -/
def c2Env : TTEnv :=
  { academicYears := [{ id := 60, institutionID := 1, name := "2025-2026",
                        startDate := 0, endDate := 1, isCurrent := true,
                        description := "" }]
    classes := [{ id := 40, institutionID := 1 }]
    sections := [{ id := 32, classID := 40 }]
    subjects := [{ id := 50, institutionID := 1 }]
    teachers := [{ id := 21, institutionID := 1, userID := 3 }] }

/-- Tenant 1 candidate: `MONDAY 09:00-10:00`, room `101`. -/
def c2Req : CreateTimetableRequest :=
  { academicYearID := "60", classID := "40", sectionID := "32",
    subjectID := "50", teacherID := "21", dayOfWeek := "MONDAY",
    startTime := "09:00", endTime := "10:00", roomNumber := "101" }

/-- A timetable entry of tenant 2 that shares only the room number `101`
and the day with tenant 1's candidate. -/
def c2TenantBEntry : Timetable :=
  { id := 70, institutionID := 2, academicYearID := 61, classID := 41,
    sectionID := 98, subjectID := 51, teacherID := 99, dayOfWeek := "MONDAY",
    startTime := "09:30", endTime := "10:30", roomNumber := "101",
    isActive := true }

/-- Repositories where the academic year, class and subject belong to
tenant 1 but the referenced section hangs off another tenant's class and
the teacher belongs to tenant 2. -/
def c4Env : TTEnv :=
  { academicYears := [{ id := 60, institutionID := 1, name := "2025-2026",
                        startDate := 0, endDate := 1, isCurrent := true,
                        description := "" }]
    classes := [{ id := 40, institutionID := 1 }]
    sections := [{ id := 33, classID := 99 }]
    subjects := [{ id := 50, institutionID := 1 }]
    teachers := [{ id := 77, institutionID := 2, userID := 9 }] }

/-- Tenant 1 create request referencing tenant 2's teacher `77` and the
foreign section `33`. -/
def c4Req : CreateTimetableRequest :=
  { academicYearID := "60", classID := "40", sectionID := "33",
    subjectID := "50", teacherID := "77", dayOfWeek := "FRIDAY",
    startTime := "11:00", endTime := "11:45", roomNumber := "" }

/-- Update request switching only the teacher to tenant 2's teacher `77`. -/
def c4UpdReq : UpdateTimetableRequest :=
  { academicYearID := "", classID := "", sectionID := "", subjectID := "",
    teacherID := "77", dayOfWeek := "", startTime := "", endTime := "",
    roomNumber := "", isActive := none }

/-- A timetable table for the weekly-view experiment: three active class-40
entries over two days plus another class's entry and an inactive one. -/
def c8Db : List Timetable :=
  [{ id := 80, institutionID := 1, academicYearID := 60, classID := 40,
     sectionID := 30, subjectID := 50, teacherID := 20, dayOfWeek := "MONDAY",
     startTime := "09:00", endTime := "09:45", roomNumber := "101",
     isActive := true },
   { id := 81, institutionID := 1, academicYearID := 60, classID := 40,
     sectionID := 30, subjectID := 51, teacherID := 21, dayOfWeek := "MONDAY",
     startTime := "10:00", endTime := "10:45", roomNumber := "102",
     isActive := true },
   { id := 82, institutionID := 1, academicYearID := 60, classID := 40,
     sectionID := 30, subjectID := 52, teacherID := 22,
     dayOfWeek := "WEDNESDAY", startTime := "08:00", endTime := "08:45",
     roomNumber := "", isActive := true },
   { id := 83, institutionID := 1, academicYearID := 60, classID := 41,
     sectionID := 31, subjectID := 50, teacherID := 20, dayOfWeek := "MONDAY",
     startTime := "09:00", endTime := "09:45", roomNumber := "103",
     isActive := true },
   { id := 84, institutionID := 1, academicYearID := 60, classID := 40,
     sectionID := 30, subjectID := 53, teacherID := 23, dayOfWeek := "FRIDAY",
     startTime := "09:00", endTime := "09:45", roomNumber := "",
     isActive := false }]

/-! ## Order lemmas for the lexicographic time comparison -/

theorem charListLtb_irrefl : ∀ a, charListLtb a a = false := by
  intro a
  induction a with
  | nil => rfl
  | cons c cs ih => simp [charListLtb, ih]

theorem charListLtb_trans : ∀ a b c, charListLtb a b = true → charListLtb b c = true →
    charListLtb a c = true := by
  intro a
  induction a with
  | nil =>
    intro b c hab hbc
    cases b <;> cases c <;> simp_all [charListLtb]
  | cons x xs ih =>
    intro b c hab hbc
    cases b with
    | nil => simp [charListLtb] at hab
    | cons y ys =>
      cases c with
      | nil => simp [charListLtb] at hbc
      | cons z zs =>
        simp only [charListLtb] at hab hbc ⊢
        rcases Nat.lt_trichotomy x.toNat y.toNat with hxy | hxy | hxy
        · rcases Nat.lt_trichotomy y.toNat z.toNat with hyz | hyz | hyz
          · simp [Nat.lt_trans hxy hyz]
          · have : x.toNat < z.toNat := by omega
            simp [this]
          · simp [Nat.lt_asymm hyz, hyz] at hbc
        · have hn1 : ¬ x.toNat < y.toNat := by omega
          have hn2 : ¬ y.toNat < x.toNat := by omega
          simp only [hn1, if_false, hn2] at hab
          rcases Nat.lt_trichotomy y.toNat z.toNat with hyz | hyz | hyz
          · have : x.toNat < z.toNat := by omega
            simp [this]
          · have hn3 : ¬ y.toNat < z.toNat := by omega
            have hn4 : ¬ z.toNat < y.toNat := by omega
            simp only [hn3, if_false, hn4] at hbc
            have hn5 : ¬ x.toNat < z.toNat := by omega
            have hn6 : ¬ z.toNat < x.toNat := by omega
            simp only [hn5, if_false, hn6]
            exact ih ys zs hab hbc
          · simp [Nat.lt_asymm hyz, hyz] at hbc
        · simp [Nat.lt_asymm hxy, hxy] at hab

theorem charListLtb_total : ∀ a b, charListLtb a b = true ∨ a = b ∨ charListLtb b a = true := by
  intro a
  induction a with
  | nil => intro b; cases b <;> simp [charListLtb]
  | cons x xs ih =>
    intro b
    cases b with
    | nil => simp [charListLtb]
    | cons y ys =>
      rcases Nat.lt_trichotomy x.toNat y.toNat with h | h | h
      · left; simp [charListLtb, h]
      · have hx : x = y :=
          Char.eq_of_val_eq (UInt32.eq_of_toBitVec_eq (BitVec.eq_of_toNat_eq h))
        subst hx
        rcases ih ys with h' | h' | h'
        · left; simp [charListLtb, h']
        · right; left; rw [h']
        · right; right; simp [charListLtb, h']
      · right; right; simp [charListLtb, h, Nat.lt_asymm h]

theorem charListLtb_asymm {a b : List Char} (h : charListLtb a b = true) :
    charListLtb b a = false := by
  rcases Bool.eq_false_or_eq_true (charListLtb b a) with h' | h'
  · have := charListLtb_trans a b a h h'
    rw [charListLtb_irrefl] at this
    simp at this
  · exact h'

/-- The three-clause disjunction coincides with half-open interval overlap,
stated at the level of character lists. -/
theorem overlap_iff_list (A B C D : List Char)
    (h1 : charListLtb A B = true) (h2 : charListLtb C D = true) :
    ((!charListLtb A C && charListLtb A D) ||
     (charListLtb C B && !charListLtb D B) ||
     (!charListLtb C A && !charListLtb B D)) = true ↔
    (charListLtb A D = true ∧ charListLtb C B = true) := by
  simp only [Bool.or_eq_true, Bool.and_eq_true, Bool.not_eq_true']
  constructor
  · rintro ((⟨hac, had⟩ | ⟨hcb, hdb⟩) | ⟨hca, hbd⟩)
    · refine ⟨had, ?_⟩
      rcases charListLtb_total A C with h | h | h
      · rw [h] at hac; exact absurd hac (by simp)
      · rw [← h]; exact h1
      · exact charListLtb_trans C A B h h1
    · refine ⟨?_, hcb⟩
      rcases charListLtb_total B D with h | h | h
      · exact charListLtb_trans A B D h1 h
      · rw [← h]; exact h1
      · rw [h] at hdb; exact absurd hdb (by simp)
    · constructor
      · rcases charListLtb_total C A with h | h | h
        · rw [h] at hca; exact absurd hca (by simp)
        · rw [← h]; exact h2
        · exact charListLtb_trans A C D h h2
      · rcases charListLtb_total B D with h | h | h
        · rw [h] at hbd; exact absurd hbd (by simp)
        · rw [h]; exact h2
        · exact charListLtb_trans C D B h2 h
  · rintro ⟨had, hcb⟩
    by_cases hac : charListLtb A C = true
    · by_cases hbd : charListLtb B D = true
      · exact Or.inl (Or.inr ⟨hcb, charListLtb_asymm hbd⟩)
      · exact Or.inr ⟨charListLtb_asymm hac, by simpa using hbd⟩
    · exact Or.inl (Or.inl ⟨by simpa using hac, had⟩)

/-! ## Claim theorems -/

/-- C1: for `HH:MM` times with `start < end` on both sides, the three-clause
disjunction used by `CheckConflict` reports a conflict iff the half-open
intervals overlap (`s1 < e2` and `s2 < e1`); in particular, in Scenario B
the overlapping same-teacher attempt is rejected by `Create` with the
scheduling-conflict error before any write, while the touching back-to-back
attempt is accepted. -/
theorem c1_conflict_disjunction_iff_overlap (s1 e1 s2 e2 : String)
    (h1 : strLt s1 e1 = true) (h2 : strLt s2 e2 = true) :
    (overlapClause s1 e1 s2 e2 = true ↔
      (strLt s1 e2 = true ∧ strLt s2 e1 = true)) ∧
    timetableCreate scenarioBEnv scenarioBDb scenarioBOverlapReq 1 11 =
      .error .schedulingConflict ∧
    succeeds (timetableCreate scenarioBEnv scenarioBDb scenarioBTouchingReq 1 11) = true := by
  refine ⟨?_, by rfl, by rfl⟩
  unfold overlapClause strLe strLt at *
  exact overlap_iff_list s1.data e1.data s2.data e2.data h1 h2

/-- Witness for C1 at concrete times `[09:00,10:00)` vs `[09:30,10:30)`. -/
theorem c1_conflict_disjunction_iff_overlap_witness :
    overlapClause "09:00" "10:00" "09:30" "10:30" = true ↔
      (strLt "09:00" "10:30" = true ∧ strLt "09:30" "10:00" = true) :=
  (c1_conflict_disjunction_iff_overlap "09:00" "10:00" "09:30" "10:30"
    (by decide) (by decide)).1

/-- C2 counterexample: two storage states that differ only in a tenant-2
entry (same room number `101`, same day) flip tenant 1's create outcome
from accept to scheduling-conflict, so conflict detection is not
tenant-scoped. -/
theorem c2_counterexample_room_crosses_tenants :
    succeeds (timetableCreate c2Env [] c2Req 1 12) = true ∧
    timetableCreate c2Env [c2TenantBEntry] c2Req 1 12 =
      .error .schedulingConflict ∧
    c2TenantBEntry.institutionID = 2 := by
  exact ⟨rfl, rfl, rfl⟩

/-- C2 amended: the conflict queries filter only on teacher id, section id,
room number and day — never on `institution_id` — so another tenant's
entries leave the accept/reject outcome unchanged exactly when none of them
matches the candidate on one of those axes; appended entries (of any
tenant) that match the candidate on no axis on its day do not change
`CheckConflict`. -/
theorem c2_conflict_check_ignores_unmatched_entries
    (db extra : List Timetable) (tt : Timetable) (excl : Option Nat)
    (h : ∀ e ∈ extra, e.dayOfWeek ≠ tt.dayOfWeek ∨
      (e.teacherID ≠ tt.teacherID ∧ e.sectionID ≠ tt.sectionID ∧
        e.roomNumber ≠ tt.roomNumber)) :
    checkConflict (db ++ extra) tt excl = checkConflict db tt excl := by
  have hT : extra.any (matchesTeacherConflict tt excl) = false := by
    rw [List.any_eq_false]
    intro e he
    rcases h e he with hday | ⟨ht, _, _⟩
    · simp [matchesTeacherConflict, hday]
    · simp [matchesTeacherConflict, ht]
  have hS : extra.any (matchesSectionConflict tt excl) = false := by
    rw [List.any_eq_false]
    intro e he
    rcases h e he with hday | ⟨_, hs, _⟩
    · simp [matchesSectionConflict, hday]
    · simp [matchesSectionConflict, hs]
  have hR : extra.any (matchesRoomConflict tt excl) = false := by
    rw [List.any_eq_false]
    intro e he
    rcases h e he with hday | ⟨_, _, hr⟩
    · simp [matchesRoomConflict, hday]
    · simp [matchesRoomConflict, hr]
  simp [checkConflict, List.any_append, hT, hS, hR]

/-- Witness for the amended C2: a tenant-2 entry on another day with
disjoint teacher, section and room leaves the Scenario B conflict check
unchanged. -/
theorem c2_conflict_check_ignores_unmatched_entries_witness :
    checkConflict (scenarioBDb ++
      [{ id := 71, institutionID := 2, academicYearID := 61, classID := 41,
         sectionID := 97, subjectID := 51, teacherID := 96,
         dayOfWeek := "TUESDAY", startTime := "09:00", endTime := "10:00",
         roomNumber := "202", isActive := true }])
      { id := 12, institutionID := 1, academicYearID := 60, classID := 40,
        sectionID := 32, subjectID := 50, teacherID := 21,
        dayOfWeek := "MONDAY", startTime := "09:00", endTime := "10:00",
        roomNumber := "101", isActive := true } none =
    checkConflict scenarioBDb
      { id := 12, institutionID := 1, academicYearID := 60, classID := 40,
        sectionID := 32, subjectID := 50, teacherID := 21,
        dayOfWeek := "MONDAY", startTime := "09:00", endTime := "10:00",
        roomNumber := "101", isActive := true } none :=
  c2_conflict_check_ignores_unmatched_entries scenarioBDb _ _ none
    (by intro e he; simp at he; subst he; left; decide)

/-- C3 counterexample: a freshly minted reset token (issuer
`campus-core-reset`) is accepted by `ValidateRefreshToken`, which never
inspects the issuer — the claim that every reset token is rejected as a
refresh token is false at this input. -/
theorem c3_counterexample_refresh_accepts_reset_token :
    validateRefreshToken { secret := "s", accessExpiry := 900, refreshExpiry := 604800 }
      (generateResetToken { secret := "s", accessExpiry := 900, refreshExpiry := 604800 } 5 0 1)
      100 = .ok 5 := by
  rfl

/-- C3 amended: `ValidateResetToken` does check the issuer, so it rejects
every token minted by `GenerateRefreshToken` (whatever the validation
time); but `ValidateRefreshToken` performs no issuer check, so an unexpired
reset token signed with the same secret passes it and yields the token's
subject. -/
theorem c3_reset_issuer_one_way (m : JWTManager) (uid now jti now' : Nat)
    (hfresh : now' < now + 3600) :
    succeeds (validateResetToken m (generateRefreshToken m uid now jti) now') = false ∧
    validateRefreshToken m (generateResetToken m uid now jti) now' = .ok uid := by
  constructor
  · by_cases hexp : now + m.refreshExpiry ≤ now'
    · simp [validateResetToken, generateRefreshToken, succeeds, hexp]
    · simp [validateResetToken, generateRefreshToken, succeeds, hexp]
  · have hexp : ¬ (now + 3600 ≤ now') := by omega
    simp [validateRefreshToken, generateResetToken, hexp]

/-- Witness for the amended C3 at a concrete manager, user and clock. -/
theorem c3_reset_issuer_one_way_witness :
    succeeds (validateResetToken { secret := "s", accessExpiry := 900, refreshExpiry := 604800 }
      (generateRefreshToken { secret := "s", accessExpiry := 900, refreshExpiry := 604800 } 5 0 1)
      100) = false ∧
    validateRefreshToken { secret := "s", accessExpiry := 900, refreshExpiry := 604800 }
      (generateResetToken { secret := "s", accessExpiry := 900, refreshExpiry := 604800 } 5 0 1)
      100 = .ok 5 :=
  c3_reset_issuer_one_way _ 5 0 1 100 (by decide)

/-- C4 counterexample: a create whose teacher belongs to tenant 2 (and
whose section hangs off a foreign class) is accepted by tenant 1's
`Create`, and an update switching to that teacher is accepted too — the
claim that a reference outside the active tenant fails with not-found is
false for the section and teacher references. -/
theorem c4_counterexample_foreign_teacher_accepted :
    c4Env.teachers = [{ id := 77, institutionID := 2, userID := 9 }] ∧
    succeeds (timetableCreate c4Env [] c4Req 1 13) = true ∧
    succeeds (timetableUpdate c4Env
      [{ id := 14, institutionID := 1, academicYearID := 60, classID := 40,
         sectionID := 33, subjectID := 50, teacherID := 21,
         dayOfWeek := "FRIDAY", startTime := "11:00", endTime := "11:45",
         roomNumber := "", isActive := true }] 14 c4UpdReq 1) = true := by
  exact ⟨rfl, rfl, rfl⟩

/-- C4 amended: on create (update is the same lookup path), the academic
year, class and subject references must exist in the active tenant and the
section and teacher references must merely exist — each miss fails with the
not-found error naming the entity, before any write (the table is only
extended in the success branch); when all five resolve, the service
proceeds to the conflict check and otherwise inserts. -/
theorem c4_reference_resolution (env : TTEnv) (db : List Timetable)
    (req : CreateTimetableRequest) (inst newID : Nat)
    (ayID classID sectionID subjectID teacherID : Nat)
    (hpa : uuidParse req.academicYearID = some ayID)
    (hpb : uuidParse req.classID = some classID)
    (hpc : uuidParse req.sectionID = some sectionID)
    (hpd : uuidParse req.subjectID = some subjectID)
    (hpe : uuidParse req.teacherID = some teacherID) :
    (ayFindByIDWithInstitution env.academicYears ayID inst = none →
      timetableCreate env db req inst newID =
        .error (.notFound "academic year not found")) ∧
    ((ayFindByIDWithInstitution env.academicYears ayID inst).isSome →
      classFindByIDWithInstitution env.classes classID inst = none →
      timetableCreate env db req inst newID = .error (.notFound "class not found")) ∧
    ((ayFindByIDWithInstitution env.academicYears ayID inst).isSome →
      (classFindByIDWithInstitution env.classes classID inst).isSome →
      sectionFindByID env.sections sectionID = none →
      timetableCreate env db req inst newID = .error (.notFound "section not found")) ∧
    ((ayFindByIDWithInstitution env.academicYears ayID inst).isSome →
      (classFindByIDWithInstitution env.classes classID inst).isSome →
      (sectionFindByID env.sections sectionID).isSome →
      subjectFindByIDWithInstitution env.subjects subjectID inst = none →
      timetableCreate env db req inst newID = .error (.notFound "subject not found")) ∧
    ((ayFindByIDWithInstitution env.academicYears ayID inst).isSome →
      (classFindByIDWithInstitution env.classes classID inst).isSome →
      (sectionFindByID env.sections sectionID).isSome →
      (subjectFindByIDWithInstitution env.subjects subjectID inst).isSome →
      teacherFindByID env.teachers teacherID = none →
      timetableCreate env db req inst newID = .error (.notFound "teacher not found")) ∧
    ((ayFindByIDWithInstitution env.academicYears ayID inst).isSome →
      (classFindByIDWithInstitution env.classes classID inst).isSome →
      (sectionFindByID env.sections sectionID).isSome →
      (subjectFindByIDWithInstitution env.subjects subjectID inst).isSome →
      (teacherFindByID env.teachers teacherID).isSome →
      timetableCreate env db req inst newID =
        (let tt : Timetable :=
          { id := newID, institutionID := inst, academicYearID := ayID,
            classID := classID, sectionID := sectionID, subjectID := subjectID,
            teacherID := teacherID, dayOfWeek := req.dayOfWeek,
            startTime := req.startTime, endTime := req.endTime,
            roomNumber := req.roomNumber, isActive := true }
         if checkConflict db tt none then .error .schedulingConflict
         else .ok (tt, db ++ [tt]))) := by
  refine ⟨?_, ?_, ?_, ?_, ?_, ?_⟩
  · intro h1
    simp [timetableCreate, bind, Except.bind, hpa, hpb, hpc, hpd, hpe, h1]
  · intro h1 h2
    rcases Option.isSome_iff_exists.mp h1 with ⟨ay, hay⟩
    simp [timetableCreate, bind, Except.bind, hpa, hpb, hpc, hpd, hpe, hay, h2]
  · intro h1 h2 h3
    rcases Option.isSome_iff_exists.mp h1 with ⟨ay, hay⟩
    rcases Option.isSome_iff_exists.mp h2 with ⟨cl, hcl⟩
    simp [timetableCreate, bind, Except.bind, hpa, hpb, hpc, hpd, hpe, hay, hcl, h3]
  · intro h1 h2 h3 h4
    rcases Option.isSome_iff_exists.mp h1 with ⟨ay, hay⟩
    rcases Option.isSome_iff_exists.mp h2 with ⟨cl, hcl⟩
    rcases Option.isSome_iff_exists.mp h3 with ⟨se, hse⟩
    simp [timetableCreate, bind, Except.bind, hpa, hpb, hpc, hpd, hpe, hay, hcl, hse, h4]
  · intro h1 h2 h3 h4 h5
    rcases Option.isSome_iff_exists.mp h1 with ⟨ay, hay⟩
    rcases Option.isSome_iff_exists.mp h2 with ⟨cl, hcl⟩
    rcases Option.isSome_iff_exists.mp h3 with ⟨se, hse⟩
    rcases Option.isSome_iff_exists.mp h4 with ⟨su, hsu⟩
    simp [timetableCreate, bind, Except.bind, hpa, hpb, hpc, hpd, hpe, hay, hcl, hse, hsu, h5]
  · intro h1 h2 h3 h4 h5
    rcases Option.isSome_iff_exists.mp h1 with ⟨ay, hay⟩
    rcases Option.isSome_iff_exists.mp h2 with ⟨cl, hcl⟩
    rcases Option.isSome_iff_exists.mp h3 with ⟨se, hse⟩
    rcases Option.isSome_iff_exists.mp h4 with ⟨su, hsu⟩
    rcases Option.isSome_iff_exists.mp h5 with ⟨te, hte⟩
    simp [timetableCreate, bind, Except.bind, hpa, hpb, hpc, hpd, hpe, hay, hcl, hse, hsu, hte]

/-- Witness for the amended C4: the academic-year miss on an otherwise
well-formed request against empty repositories. -/
theorem c4_reference_resolution_witness :
    timetableCreate { academicYears := [], classes := [], sections := [],
                      subjects := [], teachers := [] } [] c4Req 1 13 =
      .error (.notFound "academic year not found") :=
  (c4_reference_resolution _ [] c4Req 1 13 60 40 33 50 77
    rfl rfl rfl rfl rfl).1 rfl

/-! ## Lemmas about `SetCurrent` and current-year counting -/

theorem countCurrent_cons (r : AcademicYear) (rows : List AcademicYear) (inst : Nat) :
    countCurrent (r :: rows) inst =
      (if r.institutionID = inst ∧ r.isCurrent = true then 1 else 0) +
        countCurrent rows inst := by
  simp only [countCurrent, List.filter_cons]
  split_ifs with h1 h2 h3 <;> simp_all
  omega

/-- Number of rows carrying a given primary key. -/
def countId (rows : List AcademicYear) (id : Nat) : Nat :=
  (rows.filter fun r => decide (r.id = id)).length

theorem countId_cons (r : AcademicYear) (rows : List AcademicYear) (id : Nat) :
    countId (r :: rows) id = (if r.id = id then 1 else 0) + countId rows id := by
  simp only [countId, List.filter_cons]
  split_ifs with h1 h2 h3 <;> simp_all
  omega

theorem setCurrent_cons (r : AcademicYear) (rows : List AcademicYear) (id inst : Nat) :
    setCurrent (r :: rows) id inst =
      setCurrentRow id inst (unsetCurrentRow inst r) :: setCurrent rows id inst := by
  simp [setCurrent]

theorem countCurrent_setCurrent_le (rows : List AcademicYear) (id inst : Nat) :
    countCurrent (setCurrent rows id inst) inst ≤ countId rows id := by
  induction rows with
  | nil => simp [setCurrent, countCurrent, countId]
  | cons r rest ih =>
    rw [setCurrent_cons, countCurrent_cons, countId_cons]
    by_cases hid : r.id = id
    · simp only [hid, if_true]
      have : (if (setCurrentRow id inst (unsetCurrentRow inst r)).institutionID = inst ∧
          (setCurrentRow id inst (unsetCurrentRow inst r)).isCurrent = true then 1 else 0) ≤ 1 := by
        split_ifs <;> omega
      omega
    · have hrow : ¬ ((setCurrentRow id inst (unsetCurrentRow inst r)).institutionID = inst ∧
          (setCurrentRow id inst (unsetCurrentRow inst r)).isCurrent = true) := by
        simp only [setCurrentRow, unsetCurrentRow]
        split_ifs with h1 h2 h3 <;> simp_all
      simp only [hid, if_false, hrow]
      omega

theorem countCurrent_setCurrent_other (rows : List AcademicYear) (id inst inst' : Nat)
    (h : inst' ≠ inst) :
    countCurrent (setCurrent rows id inst) inst' = countCurrent rows inst' := by
  induction rows with
  | nil => simp [setCurrent, countCurrent]
  | cons r rest ih =>
    rw [setCurrent_cons, countCurrent_cons, countCurrent_cons, ih]
    congr 1
    simp only [setCurrentRow, unsetCurrentRow]
    split_ifs with h1 h2 h3 <;> simp_all

theorem setCurrent_map_id (rows : List AcademicYear) (id inst : Nat) :
    (setCurrent rows id inst).map (·.id) = rows.map (·.id) := by
  induction rows with
  | nil => simp [setCurrent]
  | cons r rest ih =>
    rw [setCurrent_cons]
    simp only [List.map_cons, ih, List.cons.injEq, and_true]
    simp only [setCurrentRow, unsetCurrentRow]
    split_ifs <;> rfl

theorem countId_eq_zero_of_forall_ne (rows : List AcademicYear) (id : Nat)
    (h : ∀ r ∈ rows, r.id ≠ id) : countId rows id = 0 := by
  induction rows with
  | nil => rfl
  | cons r rest ih =>
    rw [countId_cons]
    simp only [h r (by simp), if_false]
    simpa using ih fun x hx => h x (by simp [hx])

theorem countId_le_one_of_nodup (rows : List AcademicYear) (id : Nat)
    (h : (rows.map (·.id)).Nodup) : countId rows id ≤ 1 := by
  induction rows with
  | nil => simp [countId]
  | cons r rest ih =>
    rw [countId_cons]
    simp only [List.map_cons, List.nodup_cons] at h
    by_cases hid : r.id = id
    · have hzero : countId rest id = 0 := by
        apply countId_eq_zero_of_forall_ne
        intro x hx heq
        exact h.1 (by rw [← hid, ← heq] at *; exact List.mem_map_of_mem _ hx)
      simp only [hid, if_true]
      omega
    · simp only [hid, if_false]
      have := ih h.2
      omega

theorem countCurrent_append (rows₁ rows₂ : List AcademicYear) (inst : Nat) :
    countCurrent (rows₁ ++ rows₂) inst = countCurrent rows₁ inst + countCurrent rows₂ inst := by
  simp [countCurrent, List.filter_append]

theorem countId_append (rows₁ rows₂ : List AcademicYear) (id : Nat) :
    countId (rows₁ ++ rows₂) id = countId rows₁ id + countId rows₂ id := by
  simp [countId, List.filter_append]

/-- The inductive invariant of the academic-year store: ids are distinct and
below the counter, and every tenant has at most one current year. -/
def ayInv (st : AYState) : Prop :=
  (st.rows.map (·.id)).Nodup ∧ (∀ r ∈ st.rows, r.id < st.nextID) ∧
    ∀ inst, countCurrent st.rows inst ≤ 1

theorem ayInv_init : ayInv ayInit :=
  ⟨by simp [ayInit], by simp [ayInit], by simp [ayInit, countCurrent]⟩

theorem ayStep_preserves (st : AYState) (op : AYOp) (h : ayInv st) :
    ayInv (ayStep st op) := by
  obtain ⟨hnodup, hlt, hcnt⟩ := h
  cases op with
  | create req inst =>
    cases hres : academicYearCreate st.rows req inst st.nextID with
    | error e =>
      simp only [ayStep, hres]
      exact ⟨hnodup, fun r hr => Nat.lt_succ_of_lt (hlt r hr), hcnt⟩
    | ok rows' =>
      simp only [ayStep, hres]
      unfold academicYearCreate at hres
      split_ifs at hres with hdate hname hcur
      · -- current-year branch: rows' = setCurrent (rows ++ [ay]) nextID inst
        injection hres with hres
        subst hres
        set ay : AcademicYear :=
          { id := st.nextID, institutionID := inst, name := req.name,
            startDate := req.startDate, endDate := req.endDate,
            isCurrent := req.isCurrent, description := req.description } with hay
        have hids : ((setCurrent (st.rows ++ [ay]) st.nextID inst).map (·.id)) =
            st.rows.map (·.id) ++ [st.nextID] := by
          rw [setCurrent_map_id]
          simp [hay]
        refine ⟨?_, ?_, ?_⟩
        · show ((setCurrent (st.rows ++ [ay]) st.nextID inst).map (·.id)).Nodup
          rw [hids]
          simp only [List.nodup_append, List.nodup_cons]
          refine ⟨hnodup, by simp, ?_⟩
          intro x hx
          simp only [List.mem_singleton]
          rcases List.mem_map.mp hx with ⟨r, hr, hrx⟩
          have hx2 : r.id = x := hrx
          have := hlt r hr
          omega
        · intro r hr
          show r.id < st.nextID + 1
          have hmm : r.id ∈ (setCurrent (st.rows ++ [ay]) st.nextID inst).map (·.id) :=
            List.mem_map_of_mem _ hr
          rw [hids] at hmm
          rcases List.mem_append.mp hmm with hmem | hmem
          · rcases List.mem_map.mp hmem with ⟨r', hr', hrx⟩
            have hx2 : r'.id = r.id := hrx
            have := hlt r' hr'
            omega
          · simp only [List.mem_singleton] at hmem
            omega
        · intro inst'
          show countCurrent (setCurrent (st.rows ++ [ay]) st.nextID inst) inst' ≤ 1
          by_cases hinst : inst' = inst
          · subst hinst
            calc countCurrent (setCurrent (st.rows ++ [ay]) st.nextID inst') inst'
                ≤ countId (st.rows ++ [ay]) st.nextID := countCurrent_setCurrent_le _ _ _
              _ = countId st.rows st.nextID + countId [ay] st.nextID := countId_append _ _ _
              _ ≤ 1 := by
                  have h0 : countId st.rows st.nextID = 0 :=
                    countId_eq_zero_of_forall_ne _ _ fun r hr => by
                      have := hlt r hr
                      omega
                  have h1 : countId [ay] st.nextID ≤ 1 := by
                    rw [countId_cons]
                    simp only [countId, List.filter_nil, List.length_nil]
                    split_ifs <;> omega
                  omega
          · rw [countCurrent_setCurrent_other _ _ _ _ hinst, countCurrent_append]
            have hne : ¬ (ay.institutionID = inst' ∧ ay.isCurrent = true) := by
              intro hc
              apply hinst
              have hai : ay.institutionID = inst := by rw [hay]
              rw [hai] at hc
              exact hc.1.symm
            have h2 : countCurrent [ay] inst' = 0 := by
              rw [countCurrent_cons, if_neg hne]
              rfl
            have := hcnt inst'
            omega
      · -- non-current branch: rows' = rows ++ [ay]
        injection hres with hres
        subst hres
        have hcur' : req.isCurrent = false := by
          simpa using hcur
        set ay : AcademicYear :=
          { id := st.nextID, institutionID := inst, name := req.name,
            startDate := req.startDate, endDate := req.endDate,
            isCurrent := req.isCurrent, description := req.description } with hay
        refine ⟨?_, ?_, ?_⟩
        · simp only [List.map_append, List.nodup_append, List.nodup_cons]
          refine ⟨hnodup, by simp, ?_⟩
          intro x hx
          simp only [List.map_cons, List.map_nil, List.mem_singleton]
          rcases List.mem_map.mp hx with ⟨r, hr, hrx⟩
          have hx2 : r.id = x := hrx
          have := hlt r hr
          omega
        · intro r hr
          show r.id < st.nextID + 1
          rcases List.mem_append.mp hr with hmem | hmem
          · have := hlt r hmem
            omega
          · simp only [List.mem_singleton] at hmem
            subst hmem
            show st.nextID < st.nextID + 1
            omega
        · intro inst'
          show countCurrent (st.rows ++ [ay]) inst' ≤ 1
          rw [countCurrent_append, countCurrent_cons]
          have hne : ¬ (ay.institutionID = inst' ∧ ay.isCurrent = true) := by
            rw [hay]
            simp [hcur']
          rw [if_neg hne]
          have hnil : countCurrent ([] : List AcademicYear) inst' = 0 := rfl
          have := hcnt inst'
          omega
  | activate id inst =>
    cases hres : academicYearActivate st.rows id inst with
    | error e =>
      simp only [ayStep, hres]
      exact ⟨hnodup, hlt, hcnt⟩
    | ok rows' =>
      simp only [ayStep, hres]
      unfold academicYearActivate at hres
      cases hfind : ayFindByIDWithInstitution st.rows id inst with
      | none => rw [hfind] at hres; cases hres
      | some ay =>
        rw [hfind] at hres
        injection hres with hres
        subst hres
        refine ⟨?_, ?_, ?_⟩
        · show ((setCurrent st.rows id inst).map (·.id)).Nodup
          rw [setCurrent_map_id]
          exact hnodup
        · intro r hr
          show r.id < st.nextID
          have hmm : r.id ∈ (setCurrent st.rows id inst).map (·.id) :=
            List.mem_map_of_mem _ hr
          rw [setCurrent_map_id] at hmm
          rcases List.mem_map.mp hmm with ⟨r', hr', hrx⟩
          have hx2 : r'.id = r.id := hrx
          have := hlt r' hr'
          omega
        · intro inst'
          show countCurrent (setCurrent st.rows id inst) inst' ≤ 1
          by_cases hinst : inst' = inst
          · subst hinst
            calc countCurrent (setCurrent st.rows id inst') inst'
                ≤ countId st.rows id := countCurrent_setCurrent_le _ _ _
              _ ≤ 1 := countId_le_one_of_nodup _ _ hnodup
          · rw [countCurrent_setCurrent_other _ _ _ _ hinst]
            exact hcnt inst'

theorem ayExec_inv (ops : List AYOp) : ayInv (ayExec ops) := by
  suffices h : ∀ st, ayInv st → ayInv (ops.foldl ayStep st) from h ayInit ayInv_init
  induction ops with
  | nil => intro st h; exact h
  | cons op rest ih =>
    intro st h
    exact ih (ayStep st op) (ayStep_preserves st op h)

/-- C5: after any sequence of academic-year `Create` and `Activate`
operations (each prefix of a longer run is itself such a sequence), every
tenant has at most one `is_current = true` academic year: `Create` inserts
and then, when asked for current, runs the transactional `SetCurrent`
two-step, which first unsets every current row of the tenant and then sets
exactly the target. -/
theorem c5_at_most_one_current_year (ops : List AYOp) (inst : Nat) :
    countCurrent (ayExec ops).rows inst ≤ 1 :=
  (ayExec_inv ops).2.2 inst

/-- C6 counterexample: with no Redis client configured, the middleware sets
the tenant context for a well-formed but completely unknown institution id —
no existence check runs, contradicting the claim that an unknown
institution aborts with not-found and never gets tenant context. -/
theorem c6_counterexample_no_cache_client_skips_check :
    tenantMiddleware false { entries := [] } [] "" "ADMIN" "7" 0 =
      (.proceed "7", { entries := [] }) := by
  rfl

/-- C6 amended: the existence/activity check runs only when the cache
client is configured.  When it is: a malformed header aborts with
invalid-UUID; on a cache miss, an unknown-or-inactive institution aborts
with not-found, leaving the cache unchanged and never setting tenant
context; an existing active institution is cached for 1 hour (3600 s) and
the context is set.  Without a cache client, context is set right after
UUID validation with no existence check (the counterexample). -/
theorem c6_tenant_header_checks (cache : TenantCache) (insts : List Institution)
    (role header : String) (now : Nat) (id : Nat) (hheader : header ≠ "") :
    (uuidParse header = none →
      tenantMiddleware true cache insts "" role header now =
        (.abort .invalidUUID, cache)) ∧
    (uuidParse header = some id →
      cacheExists cache ("institution:exists:" ++ header) now = false →
      (insts.any fun i => decide (i.id = id) && i.isActive) = false →
      tenantMiddleware true cache insts "" role header now =
        (.abort .institutionNotFound, cache)) ∧
    (uuidParse header = some id →
      cacheExists cache ("institution:exists:" ++ header) now = false →
      (insts.any fun i => decide (i.id = id) && i.isActive) = true →
      tenantMiddleware true cache insts "" role header now =
        (.proceed header, cacheSetHour cache ("institution:exists:" ++ header) now)) := by
  refine ⟨?_, ?_, ?_⟩
  · intro hparse
    simp [tenantMiddleware, hheader, hparse]
  · intro hparse hmiss hnone
    simp [tenantMiddleware, hheader, hparse, hmiss, hnone]
  · intro hparse hmiss hsome
    simp [tenantMiddleware, hheader, hparse, hmiss, hsome]

/-- Witness for the amended C6: unknown institution aborts not-found on a
cache miss; a known active institution proceeds and is cached for 1 hour. -/
theorem c6_tenant_header_checks_witness :
    tenantMiddleware true { entries := [] } [] "" "ADMIN" "7" 0 =
      (.abort .institutionNotFound, { entries := [] }) ∧
    tenantMiddleware true { entries := [] } [{ id := 7, isActive := true }]
      "" "ADMIN" "7" 0 =
      (.proceed "7", cacheSetHour { entries := [] } "institution:exists:7" 0) :=
  ⟨(c6_tenant_header_checks { entries := [] } [] "ADMIN" "7" 0 7
      (by decide)).2.1 rfl rfl rfl,
   (c6_tenant_header_checks { entries := [] } [{ id := 7, isActive := true }]
      "ADMIN" "7" 0 7 (by decide)).2.2 rfl rfl rfl⟩

/-- C7: a non-super-admin caller whose institution differs from the
target's profile institution gets `CrossTenantAccess` from `UpdateUser`;
the error is returned before any field is applied or saved, so the target
row is untouched (the service only returns a new user table in the success
branch). -/
theorem c7_update_user_cross_tenant_rejected (users : List User) (id : Nat)
    (req : UpdateUserRequest) (creatorRole : String) (a b : Nat) (u : User)
    (p : UserProfile)
    (hfind : userFindByID users id = some u)
    (hrole : creatorRole ≠ RoleSuperAdmin)
    (hprof : u.profile = some p)
    (hinst : p.institutionID = some b)
    (hne : b ≠ a) :
    updateUser users id req creatorRole (some a) = .error .crossTenantAccess := by
  have hex : ∃ q, u.profile = some q ∧ ∃ c, q.institutionID = some c ∧
      (some a : Option Nat) ≠ some c :=
    ⟨p, hprof, b, hinst, by simpa using fun h => hne h.symm⟩
  simp only [updateUser, bind, Except.bind, hfind]
  rw [if_pos hrole, if_pos hex]

/-- Witness for C7: an `ADMIN` of institution 1 updating a user whose
profile institution is 2. -/
theorem c7_update_user_cross_tenant_rejected_witness :
    updateUser
      [{ id := 9, email := "e@x.com", phone := "1", role := "TEACHER",
         isActive := true, refreshToken := none,
         profile := some { institutionID := some 2, firstName := "F",
                           lastName := "L" } }] 9
      { email := "", phone := "", firstName := "N", lastName := "",
        isActive := none } "ADMIN" (some 1) = .error .crossTenantAccess :=
  c7_update_user_cross_tenant_rejected _ 9 _ "ADMIN" 1 2 _ _
    rfl (by decide) rfl rfl (by decide)

/-- C9 counterexample: when the SUPER_ADMIN target's profile carries an
institution different from the caller's, the cross-tenant check fires first
and `UpdateUser`/`DeleteUser` fail with `CrossTenantAccess`, not the claimed
`ActionNotPermitted`. -/
theorem c9_counterexample_cross_tenant_error_first :
    updateUser
      [{ id := 1, email := "sa@x.com", phone := "2", role := "SUPER_ADMIN",
         isActive := true, refreshToken := none,
         profile := some { institutionID := some 2, firstName := "S",
                           lastName := "A" } }] 1
      { email := "", phone := "", firstName := "N", lastName := "",
        isActive := none } "ADMIN" (some 1) = .error .crossTenantAccess ∧
    deleteUser
      [{ id := 1, email := "sa@x.com", phone := "2", role := "SUPER_ADMIN",
         isActive := true, refreshToken := none,
         profile := some { institutionID := some 2, firstName := "S",
                           lastName := "A" } }] 1 "ADMIN" (some 1) =
      .error .crossTenantAccess ∧
    SvcError.crossTenantAccess ≠ SvcError.actionNotPermitted := by
  exact ⟨rfl, rfl, by decide⟩

/-- C9 amended: for a non-super-admin caller and a SUPER_ADMIN target,
`UpdateUser` and `DeleteUser` always fail — with `ActionNotPermitted` when
the target's profile institution is absent or matches the caller, and with
`CrossTenantAccess` when it is set and differs — and in both cases the
error is returned before any mutation, so the target is unchanged. -/
theorem c9_super_admin_target_never_mutated (users : List User) (id : Nat)
    (req : UpdateUserRequest) (creatorRole : String)
    (creatorInstitutionID : Option Nat) (u : User)
    (hfind : userFindByID users id = some u)
    (hrole : creatorRole ≠ RoleSuperAdmin)
    (htarget : u.role = RoleSuperAdmin) :
    (updateUser users id req creatorRole creatorInstitutionID =
        .error .crossTenantAccess ∨
      updateUser users id req creatorRole creatorInstitutionID =
        .error .actionNotPermitted) ∧
    (deleteUser users id creatorRole creatorInstitutionID =
        .error .crossTenantAccess ∨
      deleteUser users id creatorRole creatorInstitutionID =
        .error .actionNotPermitted) ∧
    ((¬ ∃ p, u.profile = some p ∧ ∃ b, p.institutionID = some b ∧
        creatorInstitutionID ≠ some b) →
      updateUser users id req creatorRole creatorInstitutionID =
          .error .actionNotPermitted ∧
        deleteUser users id creatorRole creatorInstitutionID =
          .error .actionNotPermitted) := by
  by_cases hex : ∃ p, u.profile = some p ∧ ∃ b, p.institutionID = some b ∧
      creatorInstitutionID ≠ some b
  · refine ⟨Or.inl ?_, Or.inl ?_, fun hc => absurd hex hc⟩
    · simp only [updateUser, bind, Except.bind, hfind]
      rw [if_pos hrole, if_pos hex]
    · simp only [deleteUser, bind, Except.bind, hfind]
      rw [if_pos hrole, if_pos hex]
  · have hupd : updateUser users id req creatorRole creatorInstitutionID =
        .error .actionNotPermitted := by
      simp only [updateUser, bind, Except.bind, hfind]
      rw [if_pos hrole, if_neg hex, if_pos htarget]
    have hdel : deleteUser users id creatorRole creatorInstitutionID =
        .error .actionNotPermitted := by
      simp only [deleteUser, bind, Except.bind, hfind]
      rw [if_pos hrole, if_neg hex, if_pos htarget]
    exact ⟨Or.inr hupd, Or.inr hdel, fun _ => ⟨hupd, hdel⟩⟩

/-- Witness for the amended C9: an `ADMIN` of institution 1 against a
SUPER_ADMIN whose profile has no institution. -/
theorem c9_super_admin_target_never_mutated_witness :
    updateUser
      [{ id := 1, email := "sa@x.com", phone := "2", role := "SUPER_ADMIN",
         isActive := true, refreshToken := none,
         profile := some { institutionID := none, firstName := "S",
                           lastName := "A" } }] 1
      { email := "", phone := "", firstName := "N", lastName := "",
        isActive := none } "ADMIN" (some 1) = .error .actionNotPermitted ∧
    deleteUser
      [{ id := 1, email := "sa@x.com", phone := "2", role := "SUPER_ADMIN",
         isActive := true, refreshToken := none,
         profile := some { institutionID := none, firstName := "S",
                           lastName := "A" } }] 1 "ADMIN" (some 1) =
      .error .actionNotPermitted :=
  (c9_super_admin_target_never_mutated
      [{ id := 1, email := "sa@x.com", phone := "2", role := "SUPER_ADMIN",
         isActive := true, refreshToken := none,
         profile := some { institutionID := none, firstName := "S",
                           lastName := "A" } }] 1
      { email := "", phone := "", firstName := "N", lastName := "",
        isActive := none } "ADMIN" (some 1)
      { id := 1, email := "sa@x.com", phone := "2", role := "SUPER_ADMIN",
        isActive := true, refreshToken := none,
        profile := some { institutionID := none, firstName := "S",
                          lastName := "A" } }
      rfl (by decide) rfl).2.2 (by simp)

/-- C10: `RefreshToken` checks the account's active flag after resolving the
user and matching the stored refresh token, so a structurally valid,
unexpired, stored-matching token of a disabled account yields
`AccountDisabled`; the error is returned before any token is minted or
saved, so the stored refresh token is unchanged (the service only returns a
new user table in the success branch). -/
theorem c10_refresh_rejects_disabled_account (m : JWTManager)
    (users : List User) (permsFor : String → List String) (tok : SignedToken)
    (now jti uid : Nat) (u : User)
    (hval : validateRefreshToken m tok now = .ok uid)
    (hfind : userFindByID users uid = some u)
    (hstored : u.refreshToken = some tok)
    (hactive : u.isActive = false) :
    refreshTokenService m users permsFor tok now jti =
      .error .accountDisabled := by
  simp [refreshTokenService, bind, Except.bind, hval, hfind, hstored, hactive]

/-- Witness for C10: a disabled user presenting exactly the stored,
unexpired refresh token. -/
theorem c10_refresh_rejects_disabled_account_witness :
    refreshTokenService { secret := "s", accessExpiry := 900, refreshExpiry := 604800 }
      [{ id := 5, email := "u@x.com", phone := "3", role := "TEACHER",
         isActive := false,
         refreshToken := some (generateRefreshToken
           { secret := "s", accessExpiry := 900, refreshExpiry := 604800 } 5 0 1),
         profile := none }]
      (fun _ => [])
      (generateRefreshToken
        { secret := "s", accessExpiry := 900, refreshExpiry := 604800 } 5 0 1)
      100 2 = .error .accountDisabled :=
  c10_refresh_rejects_disabled_account _ _ _ _ 100 2 5 _ rfl rfl rfl rfl

/-- The day labels of a `filterMap` whose emitted groups carry their source
day form a sublist of the day list scanned. -/
theorem map_day_filterMap_sublist (f : String → Option DayTimetable)
    (hf : ∀ d g, f d = some g → g.day = d) :
    ∀ l : List String, List.Sublist ((l.filterMap f).map (·.day)) l := by
  intro l
  induction l with
  | nil => simp
  | cons d rest ih =>
    rw [List.filterMap_cons]
    cases hfd : f d with
    | none => exact ih.cons d
    | some g =>
      rw [List.map_cons, hf d g hfd]
      exact ih.cons₂ d

/-- C8: for the active entries fetched for a class weekly view (optionally
restricted to one academic year), provided the list is ordered by start
time within each day as the repository's `ORDER BY` guarantees, the grouped
view (1) contains only rows of that class that are active and match the
year filter, (2) lists its days as a sublist of Sunday→Saturday, (3) emits
for each listed day the non-empty in-order list of that day's entries,
sorted by start time, and (4) emits a group for every day that has an
entry — days without entries are omitted rather than emitted empty. -/
theorem c8_weekly_view_grouping (db : List Timetable) (classID : Nat)
    (ayOpt : Option Nat) (tts : List Timetable)
    (hts : tts = findByClassID db classID ayOpt)
    (hsorted : tts.Pairwise fun a b =>
      a.dayOfWeek = b.dayOfWeek → strLe a.startTime b.startTime = true) :
    (∀ tt ∈ tts, tt.isActive = true ∧ tt.classID = classID ∧
      ∀ ay, ayOpt = some ay → tt.academicYearID = ay) ∧
    List.Sublist ((groupByDay tts).map (·.day)) dayOrder ∧
    (∀ g ∈ groupByDay tts,
      g.entries = (tts.filter fun tt => tt.dayOfWeek = g.day) ∧
      g.entries ≠ [] ∧
      g.entries.Pairwise fun a b => strLe a.startTime b.startTime = true) ∧
    (∀ d ∈ dayOrder, (∃ tt ∈ tts, tt.dayOfWeek = d) →
      ∃ g ∈ groupByDay tts, g.day = d) := by
  refine ⟨?_, ?_, ?_, ?_⟩
  · subst hts
    intro tt htt
    simp only [findByClassID, List.mem_filter, Bool.and_eq_true,
      decide_eq_true_eq] at htt
    obtain ⟨-, ⟨⟨hclass, hactive⟩, hay⟩⟩ := htt
    refine ⟨hactive, hclass, ?_⟩
    intro ay hay'
    subst hay'
    simpa using hay
  · unfold groupByDay
    apply map_day_filterMap_sublist
    intro d g hfd
    by_cases he : (tts.filter fun tt => tt.dayOfWeek = d).isEmpty
    · rw [if_pos he] at hfd
      cases hfd
    · rw [if_neg he] at hfd
      injection hfd with hfd
      rw [← hfd]
  · intro g hg
    unfold groupByDay at hg
    rcases List.mem_filterMap.mp hg with ⟨d, hd, hfd⟩
    by_cases he : (tts.filter fun tt => tt.dayOfWeek = d).isEmpty
    · rw [if_pos he] at hfd
      cases hfd
    · rw [if_neg he] at hfd
      injection hfd with hfd
      subst hfd
      refine ⟨rfl, ?_, ?_⟩
      · intro hnil
        have hnil' : (tts.filter fun tt => decide (tt.dayOfWeek = d)) = [] := hnil
        rw [hnil'] at he
        simp at he
      · have hpw := hsorted.filter (fun tt => decide (tt.dayOfWeek = d))
        refine hpw.imp_of_mem ?_
        intro a b ha hb hab
        simp only [List.mem_filter, decide_eq_true_eq] at ha hb
        exact hab (ha.2.trans hb.2.symm)
  · intro d hd hex
    rcases hex with ⟨tt, htt, hday⟩
    have hmem : tt ∈ tts.filter fun t => t.dayOfWeek = d :=
      List.mem_filter.mpr ⟨htt, by simpa using hday⟩
    have hne : ¬ (tts.filter fun t => t.dayOfWeek = d).isEmpty = true := by
      intro he
      rw [List.isEmpty_iff.mp he] at hmem
      cases hmem
    refine ⟨⟨d, tts.filter fun t => t.dayOfWeek = d⟩, ?_, rfl⟩
    unfold groupByDay
    exact List.mem_filterMap.mpr ⟨d, hd, by rw [if_neg hne]⟩

/-- Witness for C8 at a concrete two-day, three-entry fetched list. -/
theorem c8_weekly_view_grouping_witness :
    List.Sublist ((groupByDay (findByClassID c8Db 40 none)).map (·.day)) dayOrder ∧
    (∀ g ∈ groupByDay (findByClassID c8Db 40 none),
      g.entries = ((findByClassID c8Db 40 none).filter
        fun tt => tt.dayOfWeek = g.day) ∧
      g.entries ≠ [] ∧
      g.entries.Pairwise fun a b => strLe a.startTime b.startTime = true) :=
  have h := c8_weekly_view_grouping c8Db 40 none (findByClassID c8Db 40 none)
    rfl (by decide)
  ⟨h.2.1, h.2.2.1⟩

end CampusCore
